import Mathlib

/-
Verification of the rtmidi-rs FFI boundary and resource-ownership layer.

The Rust sources under src/ are shallowly embedded: C pointers to bytes
are `Option (List Nat)` (none is the null pointer), raw byte memory is a
function `Nat → Nat`, UTF-8 decoding (CStr::to_str) is an explicit
parameter `decode : List Nat → Option String` (none means the bytes are
not valid UTF-8), and the effect of an operation on the native instance
is made explicit by passing and returning the modelled native state.
-/

namespace RtMidi

/-- The error enum of src/error.rs. The Rust payloads Utf8Error and
NulError carry diagnostic detail only and are dropped here. -/
inductive RtMidiError where
  | Error : String → RtMidiError
  | Utf8 : RtMidiError
  | NullString : RtMidiError
  | NullPointer : RtMidiError
  deriving DecidableEq, Repr

/-- The native status record embedded in every instance: the ok flag and
the optional C string message (none models a null msg pointer), as read
through ffi::RtMidiWrapper. -/
structure RtMidiWrapper where
  ok : Bool
  msg : Option (List Nat)
  deriving DecidableEq, Repr

/-- The error-status bridge of src/error.rs, the From impl turning an
ffi::RtMidiWrapper into Result. It checks e.ok, then e.msg.is_null(),
then CStr::from_ptr(e.msg).to_str(), in that order; `decode` stands for
the UTF-8 decoding done by to_str. -/
def wrapperToResult (decode : List Nat → Option String) (e : RtMidiWrapper) :
    Except RtMidiError Unit :=
  if e.ok then
    .ok ()
  else
    match e.msg with
    | none => .error (.Error "Invalid error")
    | some bytes =>
      match decode bytes with
      | some message => .error (.Error message)
      | none => .error (.Error "Unknown error")

/-- CString::new as used with the `?` operator in src/midi.rs and the two
constructors: it fails with the NullString error exactly when the byte
string contains an embedded 0 byte, and otherwise yields the bytes for
the native call. -/
def cstringNew (s : List Nat) : Except RtMidiError (List Nat) :=
  if 0 ∈ s then .error .NullString else .ok s

/-- midi::port_name of src/midi.rs, after the native call
rtmidi_get_port_name has returned: `status` is the instance status the
call left behind and `namePtr` the returned name pointer (none = null).
The Rust match checks the bridge first, with a guard for a null pointer
on the Ok arm, then decodes the name, propagating a Utf8 failure. -/
def port_name (decode : List Nat → Option String) (status : RtMidiWrapper)
    (namePtr : Option (List Nat)) : Except RtMidiError String :=
  match wrapperToResult decode status with
  | .ok _ =>
    match namePtr with
    | none => .error .NullPointer
    | some bytes =>
      match decode bytes with
      | some s => .ok s
      | none => .error .Utf8
  | .error e => .error e

/-- midi::open_port of src/midi.rs over an abstract native state σ:
CString::new runs first and its `?` returns before any native call, so
on an embedded null the state is returned untouched; otherwise the
native rtmidi_open_port transition `native` runs and the status it left
is bridged. `getWrapper` reads the status record out of the state. -/
def open_port {σ : Type} (decode : List Nat → Option String)
    (native : Nat → List Nat → σ → σ) (getWrapper : σ → RtMidiWrapper)
    (portNumber : Nat) (portName : List Nat) (s : σ) :
    Except RtMidiError Unit × σ :=
  match cstringNew portName with
  | .error e => (.error e, s)
  | .ok name =>
    let s2 := native portNumber name s
    (wrapperToResult decode (getWrapper s2), s2)

/-- midi::open_virtual_port of src/midi.rs, same shape as open_port but
the native rtmidi_open_virtual_port takes no port number. -/
def open_virtual_port {σ : Type} (decode : List Nat → Option String)
    (native : List Nat → σ → σ) (getWrapper : σ → RtMidiWrapper)
    (portName : List Nat) (s : σ) : Except RtMidiError Unit × σ :=
  match cstringNew portName with
  | .error e => (.error e, s)
  | .ok name =>
    let s2 := native name s
    (wrapperToResult decode (getWrapper s2), s2)

/-- RtMidiIn::new of src/midi_in.rs over an allocation counter: the
counter counts native instances created by rtmidi_in_create. CString::new
of the client name runs first and its `?` returns before the create
call; `created` is the status record of the freshly created instance. -/
def rtMidiInNew (decode : List Nat → Option String) (created : RtMidiWrapper)
    (api : Nat) (clientName : List Nat) (queueSizeLimit : Nat) (allocated : Nat) :
    Except RtMidiError Unit × Nat :=
  match cstringNew clientName with
  | .error e => (.error e, allocated)
  | .ok _ =>
    let _ := api
    let _ := queueSizeLimit
    let allocated2 := allocated + 1
    (wrapperToResult decode created, allocated2)

/-- RtMidiOut::new of src/midi_out.rs, the same shape as RtMidiIn::new
without the queue size argument. -/
def rtMidiOutNew (decode : List Nat → Option String) (created : RtMidiWrapper)
    (api : Nat) (clientName : List Nat) (allocated : Nat) :
    Except RtMidiError Unit × Nat :=
  match cstringNew clientName with
  | .error e => (.error e, allocated)
  | .ok _ =>
    let _ := api
    let allocated2 := allocated + 1
    (wrapperToResult decode created, allocated2)

/-- One queued MIDI message on the native side: the delta timestamp (an
opaque value of type τ standing for the f64, never computed with) and
the data bytes. -/
structure MidiMessage (τ : Type) where
  timestamp : τ
  bytes : List Nat
  deriving DecidableEq, Repr

/-- The native input instance state that RtMidiIn::message interacts
with: the input queue and the embedded status record. -/
structure NativeIn (τ : Type) where
  queue : List (MidiMessage τ)
  wrapper : RtMidiWrapper
  deriving DecidableEq, Repr

/-- A Rust Vec as RtMidiIn::message uses it: the bytes sitting in its
heap buffer and the logical length field. Vec::with_capacity gives
length 0, and writes through as_mut_ptr change only the buffer. -/
structure RustVec where
  buf : List Nat
  len : Nat
  deriving DecidableEq, Repr

/-- Vec::with_capacity: an empty vector (length 0), whatever the
requested capacity. -/
def RustVec.withCapacity (_capacity : Nat) : RustVec := ⟨[], 0⟩

/-- The observable contents of a Vec: the first len bytes of the buffer.
Bytes written past the length field are not part of the vector. -/
def RustVec.asBytes (v : RustVec) : List Nat := v.buf.take v.len

/-- What the native rtmidi_in_get_message call gives back to the caller:
the returned timestamp, the bytes it wrote through the buffer pointer,
the message size it stored through the size pointer, and the instance
state after the call. -/
structure GetMessageOut (τ : Type) where
  timestamp : τ
  written : List Nat
  sizeOut : Nat
  state : NativeIn τ
  deriving DecidableEq, Repr

/-- The native rtmidi_in_get_message on its success path: pops the front
of the queue when one is pending, writing its bytes into the caller
buffer and its size through the size pointer; with an empty queue it
writes nothing, stores size 0 and returns the default timestamp t0. -/
def rtmidi_in_get_message {τ : Type} (s : NativeIn τ) (t0 : τ) : GetMessageOut τ :=
  match s.queue with
  | [] => ⟨t0, [], 0, s⟩
  | m :: rest => ⟨m.timestamp, m.bytes, m.bytes.length, ⟨rest, s.wrapper⟩⟩

/-- RtMidiIn::message of src/midi_in.rs: length starts at 0, a Vec of
capacity 1024 is created, the native call writes through its as_mut_ptr
(updating only the buffer: the code never sets the Vec length field
afterwards), then the status is bridged and (timestamp, vec) returned. -/
def rtMidiInMessage {τ : Type} (decode : List Nat → Option String)
    (s : NativeIn τ) (t0 : τ) :
    Except RtMidiError (τ × List Nat) × NativeIn τ :=
  let message := RustVec.withCapacity 1024
  let r := rtmidi_in_get_message s t0
  let message : RustVec := { message with buf := r.written }
  match wrapperToResult decode r.state.wrapper with
  | .ok _ => (.ok (r.timestamp, message.asBytes), r.state)
  | .error e => (.error e, r.state)

/-- The byte slice the trampoline builds with slice::from_raw_parts:
the `len` bytes of raw memory `mem` starting at address `ptr`, viewed in
place (no copy is modelled because none happens). -/
def readBytes (mem : Nat → Nat) (ptr len : Nat) : List Nat :=
  (List.range len).map fun i => mem (ptr + i)

/-- The v4_0_0 trampoline of src/ffi.rs create_callback: raw arguments
(timestamp, data pointer, 64-bit size, context), reconstructs the slice
of exactly `size` bytes at `data` and calls the closure recovered from
the context pointer. `func` is the closure the context pointer holds. -/
def trampolineV4 {τ α : Type} (mem : Nat → Nat) (timestamp : τ)
    (data : Nat) (size : Nat) (func : τ → List Nat → α) : α :=
  func timestamp (readBytes mem data size)

/-- The v4_0_0 create_callback of src/ffi.rs: returns the trampoline and
the boxed closure whose address becomes the context pointer. The second
component models the Box contents, i.e. what the context pointer points
at. -/
def create_callback_v4 {τ α : Type} (f : τ → List Nat → α) :
    ((Nat → Nat) → τ → Nat → Nat → (τ → List Nat → α) → α) × (τ → List Nat → α) :=
  (trampolineV4, f)

/-- The v3_0_0 trampoline of src/ffi.rs create_callback: raw arguments
(timestamp, data pointer, context) with no length argument; the slice is
built with the fixed length 3. -/
def trampolineV3 {τ α : Type} (mem : Nat → Nat) (timestamp : τ)
    (data : Nat) (func : τ → List Nat → α) : α :=
  func timestamp (readBytes mem data 3)

/-- The v3_0_0 create_callback of src/ffi.rs, same contract as the v4
one but with the three-argument trampoline. -/
def create_callback_v3 {τ α : Type} (f : τ → List Nat → α) :
    ((Nat → Nat) → τ → Nat → (τ → List Nat → α) → α) × (τ → List Nat → α) :=
  (trampolineV3, f)

/-- The callback-context accounting of an RtMidiIn handle: the ids of
Box::into_raw allocations the Rust side has not reclaimed, the next
fresh id, and the context the native registration slot currently
holds. -/
structure CallbackState where
  live : List Nat
  next : Nat
  installed : Option Nat
  deriving DecidableEq, Repr

/-- A fresh handle: no context allocated, none installed. -/
def CallbackState.init : CallbackState := ⟨[], 0, none⟩

/-- RtMidiIn::set_callback of src/midi_in.rs as it acts on the context
accounting: ffi::create_callback runs Box::into_raw, allocating a fresh
context, and rtmidi_in_set_callback installs it. The code neither frees
nor even remembers the previously installed context. -/
def set_callback (s : CallbackState) : CallbackState :=
  ⟨s.next :: s.live, s.next + 1, some s.next⟩

/-- RtMidiIn::cancel_callback of src/midi_in.rs as it acts on the
context accounting: rtmidi_in_cancel_callback clears the native
registration slot; no Box::from_raw appears anywhere in the crate, so
nothing is reclaimed on the Rust side. -/
def cancel_callback (s : CallbackState) : CallbackState :=
  { s with installed := none }

/-- The Rust cast `length as i32` on a usize: truncation to the low 32
bits, reinterpreted as a signed 32-bit value. -/
def i32OfUsize (n : Nat) : Int :=
  let m : Nat := n % 2 ^ 32
  if m < 2 ^ 31 then (m : Int) else (m : Int) - 2 ^ 32

/-- The arguments RtMidiOut::message hands to rtmidi_out_send_message:
the data pointer and the length after the cast to the C int. -/
structure SendCall where
  ptr : Nat
  len : Int
  deriving DecidableEq, Repr

/-- RtMidiOut::message of src/midi_out.rs: reads the slice length, calls
rtmidi_out_send_message(self.0, message.as_ptr(), length as i32), then
bridges the status the call left behind. `msgPtr` is the address the
slice points at and `status` the post-call instance status. -/
def rtMidiOutMessage (decode : List Nat → Option String) (status : RtMidiWrapper)
    (msgPtr : Nat) (message : List Nat) : Except RtMidiError Unit × SendCall :=
  let length := message.length
  (wrapperToResult decode status, ⟨msgPtr, i32OfUsize length⟩)

/-- Modelled from the spec: the six native API enumeration constants come
from the generated bindings (not under src/); the native header declares
them as one C enum, i.e. consecutive distinct values starting at 0. -/
def RTMIDI_API_UNSPECIFIED : Nat := 0

/-- Modelled from the spec: see RTMIDI_API_UNSPECIFIED. -/
def RTMIDI_API_MACOSX_CORE : Nat := 1

/-- Modelled from the spec: see RTMIDI_API_UNSPECIFIED. -/
def RTMIDI_API_LINUX_ALSA : Nat := 2

/-- Modelled from the spec: see RTMIDI_API_UNSPECIFIED. -/
def RTMIDI_API_UNIX_JACK : Nat := 3

/-- Modelled from the spec: see RTMIDI_API_UNSPECIFIED. -/
def RTMIDI_API_WINDOWS_MM : Nat := 4

/-- Modelled from the spec: see RTMIDI_API_UNSPECIFIED. -/
def RTMIDI_API_RTMIDI_DUMMY : Nat := 5

/-- The MIDI API specifier enum of src/api.rs. -/
inductive RtMidiApi where
  | Unspecified
  | MacOSXCore
  | LinuxALSA
  | UnixJack
  | WindowsMM
  | RtMidiDummy
  deriving DecidableEq, Repr

/-- The Rust cast `api as u32` on the repr(u32) enum: each variant
becomes its declared native constant. -/
def RtMidiApi.toU32 : RtMidiApi → Nat
  | .Unspecified => RTMIDI_API_UNSPECIFIED
  | .MacOSXCore => RTMIDI_API_MACOSX_CORE
  | .LinuxALSA => RTMIDI_API_LINUX_ALSA
  | .UnixJack => RTMIDI_API_UNIX_JACK
  | .WindowsMM => RTMIDI_API_WINDOWS_MM
  | .RtMidiDummy => RTMIDI_API_RTMIDI_DUMMY

/-- From u32 for RtMidiApi of src/api.rs: the match over the six native
constants; the final arm panics, modelled as none. Some value means a
normal return, none means the fatal panic arm was taken. -/
def RtMidiApi.fromU32 (api : Nat) : Option RtMidiApi :=
  if api = RTMIDI_API_UNSPECIFIED then some .Unspecified
  else if api = RTMIDI_API_MACOSX_CORE then some .MacOSXCore
  else if api = RTMIDI_API_LINUX_ALSA then some .LinuxALSA
  else if api = RTMIDI_API_UNIX_JACK then some .UnixJack
  else if api = RTMIDI_API_WINDOWS_MM then some .WindowsMM
  else if api = RTMIDI_API_RTMIDI_DUMMY then some .RtMidiDummy
  else none

/-- The outcome of the Display impl of src/api.rs: a formatted string, a
fmt error returned by write!, or a fault, i.e. undefined behaviour from
dereferencing an invalid pointer. -/
inductive FmtResult where
  | ok : String → FmtResult
  | fmtError : FmtResult
  | fault : FmtResult
  deriving DecidableEq, Repr

/-- The v3_0_0 stub rtmidi_api_display_name of src/ffi.rs: it returns
ptr::null() for every api value. -/
def rtmidi_api_display_name_v3 (_api : Nat) : Option (List Nat) := none

/-- The Display impl of src/api.rs built under the v3_0_0 generation:
CStr::from_ptr is applied to the pointer rtmidi_api_display_name
returns, unconditionally. CStr::from_ptr on a null pointer reads the
pointed-to memory (strlen), which is a fault; on a valid pointer the
bytes are decoded, a decode failure becoming fmt::Error. -/
def displayV3 (decode : List Nat → Option String) (api : RtMidiApi) : FmtResult :=
  match rtmidi_api_display_name_v3 api.toU32 with
  | none => .fault
  | some bytes =>
    match decode bytes with
    | some s => .ok s
    | none => .fmtError

/-- Claim C1 (code bug): with a three-byte message pending on the queue
and a clean status, RtMidiIn::message returns Ok with a zero-length byte
sequence and the popped queue — the code never sets the Vec length after
the native call writes the bytes, so pending data is reported empty,
against the claim (and the function doc) that a pending message comes
back as a non-zero-length byte sequence. -/
theorem message_loses_pending_bytes :
    rtMidiInMessage (fun _ => none)
        (⟨[⟨1, [144, 60, 100]⟩], ⟨true, none⟩⟩ : NativeIn Nat) 0 =
      (.ok (1, []), ⟨[], ⟨true, none⟩⟩) := rfl

/-- Claim C2: the error-status bridge returns Ok when ok is true; with
ok false and a null msg pointer it reports the generic "Invalid error"
whatever the decoder does (the pointer is never consulted); with ok
false and bytes no decoder accepts it reports the generic
"Unknown error"; with ok false and bytes decoding to s it reports
exactly s. -/
theorem wrapperToResult_bridge (decode : List Nat → Option String)
    (e : RtMidiWrapper) :
    (e.ok = true → wrapperToResult decode e = .ok ()) ∧
    (e.ok = false → e.msg = none →
      ∀ decode2, wrapperToResult decode2 e = .error (.Error "Invalid error")) ∧
    (∀ bytes, e.ok = false → e.msg = some bytes → decode bytes = none →
      wrapperToResult decode e = .error (.Error "Unknown error")) ∧
    (∀ bytes s, e.ok = false → e.msg = some bytes → decode bytes = some s →
      wrapperToResult decode e = .error (.Error s)) := by
  refine ⟨?_, ?_, ?_, ?_⟩
  · intro h
    simp [wrapperToResult, h]
  · intro h hm decode2
    simp [wrapperToResult, h, hm]
  · intro bytes h hm hd
    simp [wrapperToResult, h, hm, hd]
  · intro bytes s h hm hd
    simp [wrapperToResult, h, hm, hd]

/-- Claim C3: both trampolines hand the closure the byte slice at the
data pointer — exactly size bytes under the v4 ABI, exactly 3 bytes
under the v3 ABI — and the closure reached through the context pointer
is exactly the one create_callback was given. -/
theorem create_callback_trampoline {τ α : Type} (f : τ → List Nat → α)
    (mem : Nat → Nat) (t : τ) (data size : Nat) :
    (create_callback_v4 f).1 mem t data size (create_callback_v4 f).2 =
        f t (readBytes mem data size) ∧
    (readBytes mem data size).length = size ∧
    (create_callback_v4 f).2 = f ∧
    (create_callback_v3 f).1 mem t data (create_callback_v3 f).2 =
        f t (readBytes mem data 3) ∧
    (readBytes mem data 3).length = 3 ∧
    (create_callback_v3 f).2 = f := by
  refine ⟨rfl, ?_, rfl, rfl, ?_, rfl⟩ <;> simp [readBytes]

/-- Claim C4 is false of the code: after set_callback then
cancel_callback the context allocated by set_callback is still live, and
a second set_callback on top of an active one leaves two live
contexts. -/
theorem callback_contexts_leak :
    ¬ ((cancel_callback (set_callback CallbackState.init)).live = [] ∧
        (set_callback (set_callback CallbackState.init)).live.length ≤ 1) := by
  decide

/-- Claim C4 amended: the Rust side never reclaims a callback context:
cancel_callback leaves the live allocations untouched and set_callback
always adds a fresh one without releasing its predecessor, so repeated
registration accumulates live contexts instead of holding at most
one. -/
theorem callback_context_never_reclaimed (s : CallbackState) :
    (cancel_callback s).live = s.live ∧
    (set_callback s).live = s.next :: s.live ∧
    (set_callback s).live.length = s.live.length + 1 := by
  exact ⟨rfl, rfl, by simp [set_callback]⟩

/-- Claim C5 is false as stated: for a slice of 2 ^ 32 bytes the length
argument handed to rtmidi_out_send_message is 0, not the slice length —
the cast of the usize length to the 32-bit C int truncates it. -/
theorem out_message_length_truncated :
    ((rtMidiOutMessage (fun _ => none) ⟨true, none⟩ 0
        (List.replicate (2 ^ 32) 192)).2.len : Int) ≠
      ((List.replicate (2 ^ 32) 192).length : Int) := by
  have h : (List.replicate (2 ^ 32) (192 : Nat)).length = 2 ^ 32 :=
    List.length_replicate _ _
  simp only [rtMidiOutMessage, i32OfUsize, h]
  norm_num

/-- Claim C5 amended: RtMidiOut::message passes the native send call the
untouched slice pointer, and for every slice whose length fits the
32-bit C int argument (below 2 ^ 31) the length argument equals the
slice length; only beyond that bound does the cast truncate. -/
theorem out_message_passes_slice (decode : List Nat → Option String)
    (status : RtMidiWrapper) (p : Nat) (message : List Nat)
    (h : message.length < 2 ^ 31) :
    (rtMidiOutMessage decode status p message).2.ptr = p ∧
    ((rtMidiOutMessage decode status p message).2.len : Int) =
      (message.length : Int) := by
  refine ⟨rfl, ?_⟩
  have h32 : message.length % 2 ^ 32 = message.length :=
    Nat.mod_eq_of_lt (lt_trans h (by norm_num))
  simp only [rtMidiOutMessage, i32OfUsize, h32]
  have h2 : message.length < 2147483648 := by
    calc message.length < 2 ^ 31 := h
    _ = 2147483648 := by norm_num
  simp [h2]

/-- Witness for the amended C5 at the program-change message of the
spec: bytes [192, 5] go out with the untouched pointer and length 2. -/
theorem out_message_passes_slice_witness :
    (rtMidiOutMessage (fun _ => none) ⟨true, none⟩ 0 [192, 5]).2.ptr = 0 ∧
    ((rtMidiOutMessage (fun _ => none) ⟨true, none⟩ 0 [192, 5]).2.len : Int) =
      (([192, 5] : List Nat).length : Int) :=
  out_message_passes_slice (fun _ => none) ⟨true, none⟩ 0 [192, 5] (by norm_num)

/-- Claim C6: a client name with an embedded null byte makes both
constructors return the NullString error, and the allocation counter is
unchanged: rtmidi_in_create and rtmidi_out_create are never reached. -/
theorem new_embedded_null (decode : List Nat → Option String)
    (created : RtMidiWrapper) (api : Nat) (clientName : List Nat)
    (queueSizeLimit : Nat) (allocated : Nat) (h : 0 ∈ clientName) :
    rtMidiInNew decode created api clientName queueSizeLimit allocated =
        (.error .NullString, allocated) ∧
    rtMidiOutNew decode created api clientName allocated =
        (.error .NullString, allocated) := by
  constructor <;> simp [rtMidiInNew, rtMidiOutNew, cstringNew, h]

/-- Witness for C6 at the client name [65, 0, 66]. -/
theorem new_embedded_null_witness :
    rtMidiInNew (fun _ => none) ⟨true, none⟩ 0 [65, 0, 66] 100 0 =
        (.error .NullString, 0) ∧
    rtMidiOutNew (fun _ => none) ⟨true, none⟩ 0 [65, 0, 66] 0 =
        (.error .NullString, 0) :=
  new_embedded_null (fun _ => none) ⟨true, none⟩ 0 [65, 0, 66] 100 0 (by decide)

/-- Claim C7: port_name yields the null-pointer error exactly when the
native status is non-error yet the name pointer is null; with a
non-error status and a non-null pointer it yields the decoded name,
propagating the Utf8 failure on undecodable bytes; and whenever the
bridge turns the status into a native-reported error, port_name returns
that very error. -/
theorem port_name_bridge (decode : List Nat → Option String)
    (status : RtMidiWrapper) (namePtr : Option (List Nat)) :
    (port_name decode status namePtr = .error .NullPointer ↔
        status.ok = true ∧ namePtr = none) ∧
    (∀ bytes s, status.ok = true → namePtr = some bytes →
        decode bytes = some s → port_name decode status namePtr = .ok s) ∧
    (∀ bytes, status.ok = true → namePtr = some bytes →
        decode bytes = none → port_name decode status namePtr = .error .Utf8) ∧
    (∀ e, wrapperToResult decode status = .error e →
        port_name decode status namePtr = .error e) := by
  obtain ⟨ok, msg⟩ := status
  cases ok
  · refine ⟨?_, ?_, ?_, ?_⟩
    · cases msg with
      | none => simp [port_name, wrapperToResult]
      | some bytes =>
        cases hd : decode bytes <;>
          simp [port_name, wrapperToResult, hd]
    · intro bytes s hok
      exact absurd hok (by simp)
    · intro bytes hok
      exact absurd hok (by simp)
    · intro e he
      cases msg with
      | none =>
        simp [wrapperToResult] at he
        simp [port_name, wrapperToResult, ← he]
      | some bytes =>
        cases hd : decode bytes <;>
          simp [wrapperToResult, hd] at he <;>
          simp [port_name, wrapperToResult, hd, ← he]
  · refine ⟨?_, ?_, ?_, ?_⟩
    · cases namePtr with
      | none => simp [port_name, wrapperToResult]
      | some bytes =>
        cases hd : decode bytes <;>
          simp [port_name, wrapperToResult, hd]
    · intro bytes s _ hp hd
      subst hp
      simp [port_name, wrapperToResult, hd]
    · intro bytes _ hp hd
      subst hp
      simp [port_name, wrapperToResult, hd]
    · intro e he
      simp [wrapperToResult] at he

/-- Claim C8: the API-specifier conversion round-trips on all six
variants, and converting any integer outside the known constant set
takes the fatal panic arm (modelled none), never yielding a value. -/
theorem api_roundtrip :
    (∀ v : RtMidiApi, RtMidiApi.fromU32 v.toU32 = some v) ∧
    (∀ n : Nat, RtMidiApi.fromU32 n = none ↔ 6 ≤ n) := by
  constructor
  · intro v
    cases v <;> rfl
  · intro n
    simp only [RtMidiApi.fromU32, RTMIDI_API_UNSPECIFIED, RTMIDI_API_MACOSX_CORE,
      RTMIDI_API_LINUX_ALSA, RTMIDI_API_UNIX_JACK, RTMIDI_API_WINDOWS_MM,
      RTMIDI_API_RTMIDI_DUMMY]
    constructor
    · intro h
      by_contra hn
      push_neg at hn
      interval_cases n <;> simp at h
    · intro h
      have h0 : n ≠ 0 := by omega
      have h1 : n ≠ 1 := by omega
      have h2 : n ≠ 2 := by omega
      have h3 : n ≠ 3 := by omega
      have h4 : n ≠ 4 := by omega
      have h5 : n ≠ 5 := by omega
      simp [h0, h1, h2, h3, h4, h5]

/-- Claim C9 (code bug): under the v3 generation every Display
formatting of an API specifier faults: the stub display-name lookup
returns the null pointer and the Display impl hands it straight to
CStr::from_ptr, which reads through it — instead of degrading to an
empty string or a formatting error. -/
theorem display_v3_faults :
    ∀ (decode : List Nat → Option String) (api : RtMidiApi),
      displayV3 decode api = .fault := by
  intro decode api
  rfl

/-- Claim C10: a port name with an embedded null byte makes open_port
and open_virtual_port return the NullString error with the native state
untouched: the CString conversion fails before any native call runs, so
the status record and connection state are unchanged. -/
theorem open_port_embedded_null {σ : Type} (decode : List Nat → Option String)
    (nativeOpen : Nat → List Nat → σ → σ) (nativeVirtual : List Nat → σ → σ)
    (getWrapper : σ → RtMidiWrapper) (portNumber : Nat) (portName : List Nat)
    (s : σ) (h : 0 ∈ portName) :
    open_port decode nativeOpen getWrapper portNumber portName s =
        (.error .NullString, s) ∧
    open_virtual_port decode nativeVirtual getWrapper portName s =
        (.error .NullString, s) := by
  constructor <;> simp [open_port, open_virtual_port, cstringNew, h]

/-- Witness for C10 at the port name [80, 0] over a counter state. -/
theorem open_port_embedded_null_witness :
    open_port (fun _ => none) (fun _ _ n => n + 1)
        (fun _ => (⟨true, none⟩ : RtMidiWrapper)) 3 [80, 0] (7 : Nat) =
        (.error .NullString, 7) ∧
    open_virtual_port (fun _ => none) (fun _ n => n + 1)
        (fun _ => (⟨true, none⟩ : RtMidiWrapper)) [80, 0] (7 : Nat) =
        (.error .NullString, 7) :=
  open_port_embedded_null (fun _ => none) (fun _ _ n => n + 1)
    (fun _ n => n + 1) (fun _ => (⟨true, none⟩ : RtMidiWrapper)) 3 [80, 0]
    (7 : Nat) (by decide)

end RtMidi
